import Mathlib

/-!
Verification of the `SystemHealthMonitor` subsystem (health checks,
threshold-based alert generation and notification fan-out) of the
Modern-MPS factory-management application.

The TypeScript class `SystemHealthMonitor` is shallowly embedded below:
string-union types become inductive types, `async` methods become pure
functions over explicit inputs (the awaited outcome of each external call
is a parameter of type `Except String _`), the mutable instance fields
become an explicit `MonitorState` record that is threaded through the
operations, and the observable effects of a call (the records it builds,
the notification dispatch calls it makes, the errors it catches and logs)
are returned as an explicit trace.

Free-form JSON fields (`details`, `context_data`) are carried nowhere in
the claims and are omitted from the records; every other field of every
record built by the source is reproduced.  The durable-storage writes
(`storage.ts`) are TODO comments in the source, so "persisting" a record
is modelled as the record appearing in the returned trace.
-/

namespace HealthMon

/-- Status union of a health-check result:
`'healthy' | 'warning' | 'critical' | 'unknown'`. -/
inductive HealthStatus where
  | healthy
  | warning
  | critical
  | unknown
deriving DecidableEq, Repr

/-- The string each `HealthStatus` constructor denotes in the source
(used where the source interpolates `result.status` into a message). -/
def statusStr : HealthStatus → String
  | HealthStatus.healthy => "healthy"
  | HealthStatus.warning => "warning"
  | HealthStatus.critical => "critical"
  | HealthStatus.unknown => "unknown"

/-- Alert type union:
`'system' | 'production' | 'quality' | 'inventory' | 'maintenance' | 'security'`. -/
inductive AlertType where
  | system
  | production
  | quality
  | inventory
  | maintenance
  | security
deriving DecidableEq, Repr

/-- The string each `AlertType` constructor denotes in the source. -/
def alertTypeStr : AlertType → String
  | AlertType.system => "system"
  | AlertType.production => "production"
  | AlertType.quality => "quality"
  | AlertType.inventory => "inventory"
  | AlertType.maintenance => "maintenance"
  | AlertType.security => "security"

/-- Alert category union: `'warning' | 'error' | 'critical' | 'info' | 'success'`. -/
inductive AlertCategory where
  | warning
  | error
  | critical
  | info
  | success
deriving DecidableEq, Repr

/-- Alert severity union: `'low' | 'medium' | 'high' | 'critical'`. -/
inductive Severity where
  | low
  | medium
  | high
  | critical
deriving DecidableEq, Repr

/-- `HealthCheckResult` interface (the free-form `details` record is
omitted: no claim reads it). -/
structure HealthCheckResult where
  checkName : String
  checkName_ar : String
  status : HealthStatus
  duration : Int
  error : Option String
deriving DecidableEq, Repr

/-- One entry of `suggested_actions`. -/
structure SuggestedAction where
  action : String
  priority : Int
  description : Option String
deriving DecidableEq, Repr

/-- `SmartAlert` interface (ephemeral alert value; `id` and the free-form
`context_data` are omitted: never set or read on the health path). -/
structure SmartAlert where
  title : String
  title_ar : String
  message : String
  message_ar : String
  type : AlertType
  category : AlertCategory
  severity : Severity
  source : String
  source_id : Option String
  suggested_actions : List SuggestedAction
  target_users : Option (List Int)
  target_roles : Option (List Int)
  requires_action : Bool
deriving DecidableEq, Repr

/-- The `alertData : InsertSystemAlert` record built by `createSystemAlert`
(the durable insert itself is a TODO comment in the source). -/
structure InsertSystemAlert where
  title : String
  title_ar : String
  message : String
  message_ar : String
  type : AlertType
  category : AlertCategory
  severity : Severity
  source : String
  source_id : Option String
  requires_action : Bool
  suggested_actions : List SuggestedAction
  target_users : Option (List Int)
  target_roles : Option (List Int)
  notification_sent : Bool
deriving DecidableEq, Repr

/-- The `healthCheckData : InsertSystemHealthCheck` record built by
`processHealthCheckResult` (free-form `check_details` omitted;
`last_check_time` is a wall-clock timestamp, not modelled). -/
structure HealthCheckRecord where
  check_name : String
  check_name_ar : String
  check_type : String
  status : HealthStatus
  check_duration_ms : Int
  last_error : Option String
deriving DecidableEq, Repr

/-- Payload handed to `notificationManager.sendToRole` / `sendToUser`. -/
structure NotificationPayload where
  title : String
  message : String
  type : AlertType
  priority : String
  recipient_type : String
  recipient_id : String
  context_type : AlertType
  context_id : Option String
  sound : Bool
  icon : String
deriving DecidableEq, Repr

/-- `AlertRule` rows come from the shared schema (not under `src/`); the
monitor never reads their fields, only the list length in
`getSystemStatus`, so a single placeholder field suffices. -/
structure AlertRule where
  id : Int
deriving DecidableEq, Repr

/-- The mutable instance fields of the `SystemHealthMonitor` class.
Timer handles (`NodeJS.Timeout | null`) are `Option Nat`; the
`lastHealthStatus : Map<string, HealthCheckResult>` is an insertion-ordered
association list, matching JS `Map` semantics. -/
structure MonitorState where
  monitoringInterval : Option Nat
  healthCheckInterval : Option Nat
  alertRules : List AlertRule
  lastHealthStatus : List (String × HealthCheckResult)
deriving DecidableEq, Repr

/-- Field values at construction time (`new SystemHealthMonitor(storage)`):
both timers null, no alert rules, empty status map. -/
def initialState : MonitorState :=
  { monitoringInterval := none
    healthCheckInterval := none
    alertRules := []
    lastHealthStatus := [] }

/-- JS `Map.prototype.set`: overwrite in place if the key exists
(preserving insertion order), else append. -/
def mapSet (m : List (String × HealthCheckResult)) (k : String) (v : HealthCheckResult) :
    List (String × HealthCheckResult) :=
  match m with
  | [] => [(k, v)]
  | (k', v') :: rest => if k' = k then (k, v) :: rest else (k', v') :: mapSet rest k v

/-- JS `String.prototype.includes` (substring containment; the empty
pattern is always contained). -/
def strIncludes (s pat : String) : Bool :=
  pat.isEmpty || (s.splitOn pat).length ≥ 2

/-- JS `a || b` for an optional string `a`: the empty string is falsy. -/
def jsOrElse (a : Option String) (b : String) : String :=
  match a with
  | some s => if s.isEmpty then b else s
  | none => b

/-- `startMonitoring`: arms both timers; `hc` and `mon` are the handles
returned by the two `setInterval` calls. -/
def startMonitoring (hc mon : Nat) (s : MonitorState) : MonitorState :=
  { s with healthCheckInterval := some hc, monitoringInterval := some mon }

/-- `stopMonitoring`: each handle is cleared and nulled only if non-null,
mirroring the two `if` guards of the source. -/
def stopMonitoring (s : MonitorState) : MonitorState :=
  let s1 := if s.healthCheckInterval ≠ none then { s with healthCheckInterval := none } else s
  if s1.monitoringInterval ≠ none then { s1 with monitoringInterval := none } else s1

/-- Return value of `getSystemStatus`. -/
structure SystemStatus where
  monitoring : Bool
  healthChecks : Bool
  lastHealthChecks : List HealthCheckResult
  totalAlertRules : Nat
deriving DecidableEq, Repr

/-- `getSystemStatus`: `monitoring = (monitoringInterval !== null)`,
`healthChecks = (healthCheckInterval !== null)`,
`lastHealthChecks = Array.from(lastHealthStatus.values())`,
`totalAlertRules = alertRules.length`. -/
def getSystemStatus (s : MonitorState) : SystemStatus :=
  { monitoring := s.monitoringInterval.isSome
    healthChecks := s.healthCheckInterval.isSome
    lastHealthChecks := s.lastHealthStatus.map Prod.snd
    totalAlertRules := s.alertRules.length }

/-- `getSystemStatus` as a state transition: the source method only reads
fields (no assignment occurs in its body), so the state is returned
unchanged next to the status value. -/
def getSystemStatusOp (s : MonitorState) : MonitorState × SystemStatus :=
  (s, getSystemStatus s)

/-- `checkDatabaseConnection`: `query` is the awaited outcome of
`db.execute(SELECT 1)` (`Except.error` when it throws), `elapsed` the
measured `Date.now()` round-trip in ms. -/
def checkDatabaseConnection (query : Except String Unit) (elapsed : Int) : HealthCheckResult :=
  match query with
  | Except.ok _ =>
    { checkName := "Database Connection"
      checkName_ar := "اتصال قاعدة البيانات"
      status := if elapsed > 5000 then HealthStatus.critical
                else if elapsed > 1000 then HealthStatus.warning
                else HealthStatus.healthy
      duration := elapsed
      error := none }
  | Except.error msg =>
    { checkName := "Database Connection"
      checkName_ar := "اتصال قاعدة البيانات"
      status := HealthStatus.critical
      duration := elapsed
      error := some msg }

/-- `checkDatabasePerformance`: `queries` is the awaited outcome of the
two statistics queries (active connection count, pretty-printed database
size); a throw in either lands in `Except.error`.  `elapsed` covers both
queries. -/
def checkDatabasePerformance (queries : Except String (Int × String)) (elapsed : Int) :
    HealthCheckResult :=
  match queries with
  | Except.ok _ =>
    { checkName := "Database Performance"
      checkName_ar := "أداء قاعدة البيانات"
      status := if elapsed > 2000 then HealthStatus.critical
                else if elapsed > 500 then HealthStatus.warning
                else HealthStatus.healthy
      duration := elapsed
      error := none }
  | Except.error msg =>
    { checkName := "Database Performance"
      checkName_ar := "أداء قاعدة البيانات"
      status := HealthStatus.critical
      duration := elapsed
      error := some msg }

/-- `checkSystemMemory`: `sample` is the outcome of
`process.memoryUsage()` as `(heapUsed, heapTotal)`; the JS floating-point
percentage `heapUsed / heapTotal * 100` is modelled over `ℚ`. -/
def checkSystemMemory (sample : Except String (ℚ × ℚ)) (elapsed : Int) : HealthCheckResult :=
  match sample with
  | Except.ok (heapUsed, heapTotal) =>
    { checkName := "Memory Usage"
      checkName_ar := "استخدام الذاكرة"
      status := if heapUsed / heapTotal * 100 > 95 then HealthStatus.critical
                else if heapUsed / heapTotal * 100 > 80 then HealthStatus.warning
                else HealthStatus.healthy
      duration := elapsed
      error := none }
  | Except.error msg =>
    { checkName := "Memory Usage"
      checkName_ar := "استخدام الذاكرة"
      status := HealthStatus.unknown
      duration := elapsed
      error := some msg }

/-- `checkSystemHealth` (the "System Health API" liveness probe): the
uptime/version/platform introspection either succeeds (always `healthy`)
or throws (`critical`). -/
def checkSystemHealth (probe : Except String Unit) (elapsed : Int) : HealthCheckResult :=
  match probe with
  | Except.ok _ =>
    { checkName := "System Health API"
      checkName_ar := "API سلامة النظام"
      status := HealthStatus.healthy
      duration := elapsed
      error := none }
  | Except.error msg =>
    { checkName := "System Health API"
      checkName_ar := "API سلامة النظام"
      status := HealthStatus.critical
      duration := elapsed
      error := some msg }

/-- `getCheckType`: substring dispatch on the check name. -/
def getCheckType (checkName : String) : String :=
  if strIncludes checkName "Database" then "database"
  else if strIncludes checkName "Memory" then "memory"
  else if strIncludes checkName "API" then "api"
  else "system"

/-- `getSuggestedActions`: two canned remediation entries per matching
substring category. -/
def getSuggestedActions (result : HealthCheckResult) : List SuggestedAction :=
  (if strIncludes result.checkName "Database" then
    [{ action := "check_database_connections", priority := 1
       description := some "فحص اتصالات قاعدة البيانات" },
     { action := "restart_database_service", priority := 2
       description := some "إعادة تشغيل خدمة قاعدة البيانات" }]
   else []) ++
  (if strIncludes result.checkName "Memory" then
    [{ action := "check_memory_usage", priority := 1
       description := some "مراجعة استخدام الذاكرة" },
     { action := "restart_application", priority := 3
       description := some "إعادة تشغيل التطبيق" }]
   else [])

/-- `createHealthAlert`: synthesizes the `SmartAlert` for a bad result. -/
def createHealthAlert (result : HealthCheckResult) : SmartAlert :=
  { title := "System Health Issue: " ++ result.checkName
    title_ar := "مشكلة في سلامة النظام: " ++ result.checkName_ar
    message := jsOrElse result.error
      (result.checkName ++ " is in " ++ statusStr result.status ++ " state")
    message_ar := jsOrElse result.error
      (result.checkName_ar ++ " في حالة " ++ statusStr result.status)
    type := AlertType.system
    category := if result.status = HealthStatus.critical then AlertCategory.critical
                else AlertCategory.warning
    severity := if result.status = HealthStatus.critical then Severity.critical
                else Severity.medium
    source := "system_health_monitor"
    source_id := some result.checkName
    requires_action := result.status = HealthStatus.critical
    suggested_actions := getSuggestedActions result
    target_users := none
    target_roles := some [1, 2] }

/-- `getAlertIcon`: fixed type-to-glyph table with a default fallback. -/
def getAlertIcon (t : String) : String :=
  if t = "system" then "⚙️"
  else if t = "production" then "🏭"
  else if t = "quality" then "✅"
  else if t = "inventory" then "📦"
  else if t = "maintenance" then "🔧"
  else if t = "security" then "🔒"
  else "🚨"

/-- The payload built for `sendToRole(roleId, ...)`. -/
def rolePayload (alert : SmartAlert) (roleId : Int) : NotificationPayload :=
  { title := alert.title_ar
    message := alert.message_ar
    type := alert.type
    priority := if alert.severity = Severity.critical then "urgent"
                else if alert.severity = Severity.high then "high"
                else "normal"
    recipient_type := "role"
    recipient_id := toString roleId
    context_type := alert.type
    context_id := alert.source_id
    sound := alert.severity = Severity.critical
    icon := getAlertIcon (alertTypeStr alert.type) }

/-- The payload built for `sendToUser(userId, ...)`. -/
def userPayload (alert : SmartAlert) (userId : Int) : NotificationPayload :=
  { title := alert.title_ar
    message := alert.message_ar
    type := alert.type
    priority := if alert.severity = Severity.critical then "urgent"
                else if alert.severity = Severity.high then "high"
                else "normal"
    recipient_type := "user"
    recipient_id := toString userId
    context_type := alert.type
    context_id := alert.source_id
    sound := alert.severity = Severity.critical
    icon := getAlertIcon (alertTypeStr alert.type) }

/-- A sequential `for ... await dispatch(...)` loop inside one `try`
block: each id is attempted in order; the first id on which the dispatch
throws (`fails id = true`) is still attempted but aborts the loop.
Returns the attempted `(id, payload)` calls and whether a throw aborted
the loop. -/
def attemptDispatches (fails : Int → Bool) (mk : Int → NotificationPayload) :
    List Int → List (Int × NotificationPayload) × Bool
  | [] => ([], false)
  | id :: rest =>
    if fails id then ([(id, mk id)], true)
    else
      let p := attemptDispatches fails mk rest
      ((id, mk id) :: p.1, p.2)

/-- Observable outcome of one `sendAlertNotification` call: the dispatch
calls actually made, and whether an exception reached the method-level
`catch` (where it is logged).  The method itself never throws. -/
structure SendTrace where
  roleAttempts : List (Int × NotificationPayload)
  userAttempts : List (Int × NotificationPayload)
  caughtError : Bool
deriving DecidableEq, Repr

/-- `sendAlertNotification`: the role loop then the user loop, both inside
ONE `try` block whose `catch` logs; a throw anywhere skips everything
after it.  `failsRole`/`failsUser` model which dispatcher calls throw. -/
def sendAlertNotification (failsRole failsUser : Int → Bool) (alert : SmartAlert) : SendTrace :=
  let rp := attemptDispatches failsRole (rolePayload alert) (alert.target_roles.getD [])
  if rp.2 then
    { roleAttempts := rp.1, userAttempts := [], caughtError := true }
  else
    let up := attemptDispatches failsUser (userPayload alert) (alert.target_users.getD [])
    { roleAttempts := rp.1, userAttempts := up.1, caughtError := up.2 }

/-- `createSystemAlert`: builds the `alertData` row (the durable insert is
a TODO comment in the source), then calls `sendAlertNotification`. -/
def createSystemAlert (failsRole failsUser : Int → Bool) (alert : SmartAlert) :
    InsertSystemAlert × SendTrace :=
  ({ title := alert.title
     title_ar := alert.title_ar
     message := alert.message
     message_ar := alert.message_ar
     type := alert.type
     category := alert.category
     severity := alert.severity
     source := alert.source
     source_id := alert.source_id
     requires_action := alert.requires_action
     suggested_actions := alert.suggested_actions
     target_users := alert.target_users
     target_roles := alert.target_roles
     notification_sent := false },
   sendAlertNotification failsRole failsUser alert)

/-- Observable outcome of one `processHealthCheckResult` call: the built
health-check row, the alert rows created (zero or one) and the
notification traces of their dispatch. -/
structure ProcessTrace where
  healthRecord : HealthCheckRecord
  alerts : List InsertSystemAlert
  sends : List SendTrace
deriving DecidableEq, Repr

/-- `processHealthCheckResult`: builds the health-check row, creates an
alert iff status is critical or warning, then overwrites the
`lastHealthStatus` cache entry for the check name.  The cache is written,
never read. -/
def processHealthCheckResult (failsRole failsUser : Int → Bool) (s : MonitorState)
    (result : HealthCheckResult) : MonitorState × ProcessTrace :=
  let healthCheckData : HealthCheckRecord :=
    { check_name := result.checkName
      check_name_ar := result.checkName_ar
      check_type := getCheckType result.checkName
      status := result.status
      check_duration_ms := result.duration
      last_error := result.error }
  let alertPart :=
    if result.status = HealthStatus.critical ∨ result.status = HealthStatus.warning then
      let p := createSystemAlert failsRole failsUser (createHealthAlert result)
      ([p.1], [p.2])
    else ([], [])
  ({ s with lastHealthStatus := mapSet s.lastHealthStatus result.checkName result },
   { healthRecord := healthCheckData, alerts := alertPart.1, sends := alertPart.2 })

/-- Outcome of one `performHealthChecks` cycle: final state, the per-result
processing traces, and the number of "probe failed to settle" log entries
(rejected promises in `Promise.allSettled`). -/
structure CycleOutcome where
  finalState : MonitorState
  traces : List ProcessTrace
  skippedLogs : Nat
deriving DecidableEq, Repr

/-- `performHealthChecks` fan-in: the four probes are issued concurrently
and collected with `Promise.allSettled`, so the cycle receives one settled
outcome per probe (in submission order); fulfilled results are processed
in order, rejected ones are logged and skipped.  The whole loop sits in a
`try`/`catch`, and the function never propagates an exception. -/
def performHealthChecks (failsRole failsUser : Int → Bool) (s : MonitorState) :
    List (Except String HealthCheckResult) → CycleOutcome
  | [] => { finalState := s, traces := [], skippedLogs := 0 }
  | Except.ok r :: rest =>
    let p := processHealthCheckResult failsRole failsUser s r
    let c := performHealthChecks failsRole failsUser p.1 rest
    { c with traces := p.2 :: c.traces }
  | Except.error _ :: rest =>
    let c := performHealthChecks failsRole failsUser s rest
    { c with skippedLogs := c.skippedLogs + 1 }

/-- The fulfilled results among a cycle's settled probe outcomes. -/
def okResults : List (Except String HealthCheckResult) → List HealthCheckResult
  | [] => []
  | Except.ok r :: rest => r :: okResults rest
  | Except.error _ :: rest => okResults rest

/-- The rejected outcomes among a cycle's settled probe outcomes. -/
def rejectedCount : List (Except String HealthCheckResult) → Nat
  | [] => 0
  | Except.ok _ :: rest => rejectedCount rest
  | Except.error _ :: rest => rejectedCount rest + 1

/-- `n` consecutive cycles each processing the same result `r`, threading
the monitor state; returns the final state and the total number of alert
rows created. -/
def processN (failsRole failsUser : Int → Bool) (r : HealthCheckResult) :
    Nat → MonitorState → MonitorState × Nat
  | 0, s => (s, 0)
  | n + 1, s =>
    let p := processHealthCheckResult failsRole failsUser s r
    let q := processN failsRole failsUser r n p.1
    (q.1, p.2.alerts.length + q.2)

/-- Total number of alert rows created across a list of processing traces. -/
def totalAlerts (ts : List ProcessTrace) : Nat :=
  (ts.map fun t => t.alerts.length).sum

/-- A dispatch-failure model under which no dispatcher call throws. -/
def noDispatchFailure : Int → Bool := fun _ => false

/-! ### Claim theorems -/

/-- C5: the Database Connection check classifies a round trip of duration
`d` as critical iff `d > 5000` ms, warning iff `1000 < d ≤ 5000` ms,
healthy iff `d ≤ 1000` ms (so 6000 ms is critical, 1500 ms warning,
200 ms healthy); when the query throws, the result is critical and the
error message is captured. -/
theorem c5_db_connection_thresholds (d : Int) (msg : String) :
    ((checkDatabaseConnection (Except.ok ()) d).status = HealthStatus.critical ↔ d > 5000) ∧
    ((checkDatabaseConnection (Except.ok ()) d).status = HealthStatus.warning ↔
      (1000 < d ∧ d ≤ 5000)) ∧
    ((checkDatabaseConnection (Except.ok ()) d).status = HealthStatus.healthy ↔ d ≤ 1000) ∧
    (checkDatabaseConnection (Except.ok ()) 6000).status = HealthStatus.critical ∧
    (checkDatabaseConnection (Except.ok ()) 1500).status = HealthStatus.warning ∧
    (checkDatabaseConnection (Except.ok ()) 200).status = HealthStatus.healthy ∧
    (checkDatabaseConnection (Except.error msg) d).status = HealthStatus.critical ∧
    (checkDatabaseConnection (Except.error msg) d).error = some msg := by
  refine ⟨?_, ?_, ?_, by decide, by decide, by decide, rfl, rfl⟩ <;>
    simp only [checkDatabaseConnection] <;> split_ifs <;> simp_all <;> omega

/-- C6: the Database Performance check classifies a query duration `d` as
warning iff `500 < d ≤ 2000` ms, critical iff `d > 2000` ms, healthy iff
`d ≤ 500` ms; when either query throws, the result is critical and the
error message is captured. -/
theorem c6_db_performance_thresholds (d : Int) (conns : Int) (size msg : String) :
    ((checkDatabasePerformance (Except.ok (conns, size)) d).status = HealthStatus.warning ↔
      (500 < d ∧ d ≤ 2000)) ∧
    ((checkDatabasePerformance (Except.ok (conns, size)) d).status = HealthStatus.critical ↔
      d > 2000) ∧
    ((checkDatabasePerformance (Except.ok (conns, size)) d).status = HealthStatus.healthy ↔
      d ≤ 500) ∧
    (checkDatabasePerformance (Except.ok (conns, size)) 1500).status = HealthStatus.warning ∧
    (checkDatabasePerformance (Except.error msg) d).status = HealthStatus.critical ∧
    (checkDatabasePerformance (Except.error msg) d).error = some msg := by
  refine ⟨?_, ?_, ?_, by norm_num [checkDatabasePerformance], rfl, rfl⟩ <;>
    simp only [checkDatabasePerformance] <;> split_ifs <;> simp_all <;> omega

/-- C7: the Memory Usage check classifies a heap usage percentage
`p = used / total * 100` as critical iff `p > 95`, warning iff
`80 < p ≤ 95`, healthy iff `p ≤ 80` (96% critical, 85% warning, 50%
healthy); the probe never throws: a sampling failure yields status
unknown with the error captured. -/
theorem c7_memory_thresholds (used total : ℚ) (d : Int) (msg : String) :
    ((checkSystemMemory (Except.ok (used, total)) d).status = HealthStatus.critical ↔
      used / total * 100 > 95) ∧
    ((checkSystemMemory (Except.ok (used, total)) d).status = HealthStatus.warning ↔
      (80 < used / total * 100 ∧ used / total * 100 ≤ 95)) ∧
    ((checkSystemMemory (Except.ok (used, total)) d).status = HealthStatus.healthy ↔
      used / total * 100 ≤ 80) ∧
    (checkSystemMemory (Except.ok (96, 100)) d).status = HealthStatus.critical ∧
    (checkSystemMemory (Except.ok (85, 100)) d).status = HealthStatus.warning ∧
    (checkSystemMemory (Except.ok (50, 100)) d).status = HealthStatus.healthy ∧
    (checkSystemMemory (Except.error msg) d).status = HealthStatus.unknown ∧
    (checkSystemMemory (Except.error msg) d).error = some msg := by
  refine ⟨?_, ?_, ?_, by norm_num [checkSystemMemory], by norm_num [checkSystemMemory],
    by norm_num [checkSystemMemory], rfl, rfl⟩ <;>
    simp only [checkSystemMemory] <;> split_ifs <;> simp_all <;> linarith

/-- C8: `stopMonitoring` is idempotent: stopping once and stopping twice
yield the same state, and after any call both timer handles are null and
`getSystemStatus` reports both timers unarmed.  (The embedding is a total
function: no call throws.) -/
theorem c8_stop_monitoring_idempotent (s : MonitorState) :
    stopMonitoring (stopMonitoring s) = stopMonitoring s ∧
    (stopMonitoring s).healthCheckInterval = none ∧
    (stopMonitoring s).monitoringInterval = none ∧
    (getSystemStatus (stopMonitoring s)).monitoring = false ∧
    (getSystemStatus (stopMonitoring s)).healthChecks = false := by
  obtain ⟨m, h, rules, cache⟩ := s
  cases m <;> cases h <;> simp [stopMonitoring, getSystemStatus]

/-- C9: `getSystemStatus` is a pure read: it returns the state unchanged,
reports whether each timer is armed, the last-known-status snapshot and
the alert-rule count; right after `startMonitoring` on a freshly
constructed monitor (before any cycle has been processed) it reports both
timers armed and an empty last-known-status collection. -/
theorem c9_get_system_status_read_only (s : MonitorState) (hc mon : Nat) :
    (getSystemStatusOp s).1 = s ∧
    (getSystemStatusOp s).2 = getSystemStatus s ∧
    (getSystemStatus s).monitoring = s.monitoringInterval.isSome ∧
    (getSystemStatus s).healthChecks = s.healthCheckInterval.isSome ∧
    (getSystemStatus s).lastHealthChecks = s.lastHealthStatus.map Prod.snd ∧
    (getSystemStatus s).totalAlertRules = s.alertRules.length ∧
    (getSystemStatus (startMonitoring hc mon initialState)).monitoring = true ∧
    (getSystemStatus (startMonitoring hc mon initialState)).healthChecks = true ∧
    (getSystemStatus (startMonitoring hc mon initialState)).lastHealthChecks = [] := by
  exact ⟨rfl, rfl, rfl, rfl, rfl, rfl, rfl, rfl, rfl⟩

/-- C3: for a critical or warning result, the synthesized alert has
severity critical iff the status is critical (else medium), category
mirroring the status, type system, and fixed `target_roles = [1, 2]`;
the notification payloads built from it carry priority urgent exactly for
severity critical (high would map to high, anything else to normal),
sound exactly for severity critical, and an icon from the fixed
type-to-glyph table with a default fallback for unknown types. -/
theorem c3_alert_shape (r : HealthCheckResult) (rid uid : Int)
    (h : r.status = HealthStatus.critical ∨ r.status = HealthStatus.warning) :
    ((createHealthAlert r).severity = Severity.critical ↔ r.status = HealthStatus.critical) ∧
    (r.status = HealthStatus.warning → (createHealthAlert r).severity = Severity.medium) ∧
    ((createHealthAlert r).category =
      if r.status = HealthStatus.critical then AlertCategory.critical else AlertCategory.warning) ∧
    (createHealthAlert r).type = AlertType.system ∧
    (createHealthAlert r).target_roles = some [1, 2] ∧
    ((rolePayload (createHealthAlert r) rid).priority =
      if r.status = HealthStatus.critical then "urgent" else "normal") ∧
    ((rolePayload (createHealthAlert r) rid).sound = true ↔
      r.status = HealthStatus.critical) ∧
    ((userPayload (createHealthAlert r) uid).priority =
      if r.status = HealthStatus.critical then "urgent" else "normal") ∧
    ((userPayload (createHealthAlert r) uid).sound = true ↔
      r.status = HealthStatus.critical) ∧
    (∀ a : SmartAlert, a.severity = Severity.high →
      (rolePayload a rid).priority = "high" ∧ (userPayload a uid).priority = "high") ∧
    (rolePayload (createHealthAlert r) rid).icon = getAlertIcon "system" ∧
    (userPayload (createHealthAlert r) uid).icon = getAlertIcon "system" ∧
    getAlertIcon "system" = "⚙️" ∧ getAlertIcon "production" = "🏭" ∧
    getAlertIcon "quality" = "✅" ∧ getAlertIcon "inventory" = "📦" ∧
    getAlertIcon "maintenance" = "🔧" ∧ getAlertIcon "security" = "🔒" ∧
    (∀ t : String,
      t ∉ (["system", "production", "quality", "inventory", "maintenance", "security"] :
        List String) → getAlertIcon t = "🚨") := by
  refine ⟨?_, ?_, ?_, rfl, rfl, ?_, ?_, ?_, ?_, ?_, rfl, rfl, rfl, rfl, rfl, rfl, rfl, rfl, ?_⟩
  · rcases h with h | h <;> simp [createHealthAlert, h]
  · intro hw
    simp [createHealthAlert, hw]
  · rcases h with h | h <;> simp [createHealthAlert, h]
  · rcases h with h | h <;> simp [rolePayload, createHealthAlert, h]
  · rcases h with h | h <;> simp [rolePayload, createHealthAlert, h]
  · rcases h with h | h <;> simp [userPayload, createHealthAlert, h]
  · rcases h with h | h <;> simp [userPayload, createHealthAlert, h]
  · intro a ha
    constructor <;> simp [rolePayload, userPayload, ha]
  · intro t ht
    simp only [List.mem_cons, List.not_mem_nil, or_false, not_or] at ht
    obtain ⟨h1, h2, h3, h4, h5, h6⟩ := ht
    simp [getAlertIcon, h1, h2, h3, h4, h5, h6]

/-- A concrete critical Database Connection result (round trip of 6000 ms). -/
def dbCritResult : HealthCheckResult := checkDatabaseConnection (Except.ok ()) 6000

/-- C3 witness: the alert-shape theorem applied to the concrete critical
result produced by a 6000 ms database round trip. -/
theorem c3_alert_shape_witness :
    ((createHealthAlert dbCritResult).severity = Severity.critical ↔
      dbCritResult.status = HealthStatus.critical) ∧
    (createHealthAlert dbCritResult).target_roles = some [1, 2] := by
  have h := c3_alert_shape dbCritResult 1 1 (Or.inl (by decide))
  exact ⟨h.1, h.2.2.2.2.1⟩

/-- C10: a result with status unknown creates no alert and dispatches no
notification; processing it only builds the attempted health-check record
and overwrites the last-known-status cache entry for that check name,
leaving every other monitor field unchanged. -/
theorem c10_unknown_bypasses_alert_pipeline (failsRole failsUser : Int → Bool)
    (s : MonitorState) (r : HealthCheckResult) (h : r.status = HealthStatus.unknown) :
    (processHealthCheckResult failsRole failsUser s r).2.alerts = [] ∧
    (processHealthCheckResult failsRole failsUser s r).2.sends = [] ∧
    (processHealthCheckResult failsRole failsUser s r).1.lastHealthStatus =
      mapSet s.lastHealthStatus r.checkName r ∧
    (processHealthCheckResult failsRole failsUser s r).1.monitoringInterval =
      s.monitoringInterval ∧
    (processHealthCheckResult failsRole failsUser s r).1.healthCheckInterval =
      s.healthCheckInterval ∧
    (processHealthCheckResult failsRole failsUser s r).1.alertRules = s.alertRules ∧
    (processHealthCheckResult failsRole failsUser s r).2.healthRecord.status =
      HealthStatus.unknown ∧
    (processHealthCheckResult failsRole failsUser s r).2.healthRecord.check_name =
      r.checkName := by
  refine ⟨?_, ?_, rfl, rfl, rfl, rfl, by simp [processHealthCheckResult, h], rfl⟩ <;>
    simp [processHealthCheckResult, h]

/-- A concrete unknown Memory Usage result (heap sampling threw). -/
def memUnknownResult : HealthCheckResult :=
  checkSystemMemory (Except.error "heap sampling failed") 0

/-- C10 witness: the unknown-status theorem applied, on the initial state,
to the concrete result the Memory Usage probe produces when heap sampling
throws. -/
theorem c10_unknown_bypasses_alert_pipeline_witness :
    (processHealthCheckResult noDispatchFailure noDispatchFailure initialState
      memUnknownResult).2.alerts = [] ∧
    (processHealthCheckResult noDispatchFailure noDispatchFailure initialState
      memUnknownResult).2.sends = [] := by
  have h := c10_unknown_bypasses_alert_pipeline noDispatchFailure noDispatchFailure
    initialState memUnknownResult rfl
  exact ⟨h.1, h.2.1⟩

/-- Dispatch loop lemma: when no id in the list fails, every id is
attempted exactly once, in order, and the loop is not aborted. -/
theorem attemptDispatches_of_all_ok (fails : Int → Bool) (mk : Int → NotificationPayload)
    (ids : List Int) (h : ∀ i ∈ ids, fails i = false) :
    attemptDispatches fails mk ids = (ids.map fun i => (i, mk i), false) := by
  induction ids with
  | nil => rfl
  | cons a l ih =>
    simp only [attemptDispatches, h a (by simp), List.map_cons]
    simp [ih fun i hi => h i (by simp [hi])]

/-- Dispatch loop lemma: the first failing id is attempted (the call is
made and throws), after which the loop is aborted: the attempted ids are
exactly the prefix up to and including the first failing id. -/
theorem attemptDispatches_first_fail (fails : Int → Bool) (mk : Int → NotificationPayload)
    (pre post : List Int) (x : Int)
    (hpre : ∀ i ∈ pre, fails i = false) (hx : fails x = true) :
    attemptDispatches fails mk (pre ++ x :: post) =
      ((pre ++ [x]).map fun i => (i, mk i), true) := by
  induction pre with
  | nil => simp [attemptDispatches, hx]
  | cons a l ih =>
    simp only [List.cons_append, attemptDispatches, hpre a (by simp), List.map_cons]
    simp [ih fun i hi => hpre i (by simp [hi])]

/-- Alert-count lemma: a critical or warning result creates exactly one
alert row each time it is processed, so `n` consecutive cycles create
`n` alert rows. -/
theorem processN_alert_count (failsRole failsUser : Int → Bool) (r : HealthCheckResult)
    (h : r.status = HealthStatus.critical ∨ r.status = HealthStatus.warning) :
    ∀ (n : Nat) (s : MonitorState), (processN failsRole failsUser r n s).2 = n := by
  intro n
  induction n with
  | zero => intro s; rfl
  | succ k ih =>
    intro s
    simp only [processN, ih]
    rcases h with h | h <;> simp [processHealthCheckResult, h] <;> omega

/-- Healthy-cycle lemma: a cycle whose fulfilled results are all healthy
creates zero alert rows. -/
theorem healthy_cycle_no_alerts (failsRole failsUser : Int → Bool) :
    ∀ (results : List HealthCheckResult) (s : MonitorState),
      (∀ x ∈ results, x.status = HealthStatus.healthy) →
      totalAlerts
        (performHealthChecks failsRole failsUser s (results.map Except.ok)).traces = 0 := by
  intro results
  induction results with
  | nil => intro s _; rfl
  | cons a l ih =>
    intro s h
    have ha := h a (by simp)
    simp only [List.map_cons, performHealthChecks, totalAlerts, List.sum_cons]
    have hrest := ih ((processHealthCheckResult failsRole failsUser s a).1)
      fun x hx => h x (by simp [hx])
    simp only [totalAlerts] at hrest
    simp [processHealthCheckResult, ha]
    exact hrest

/-- Fan-out lemma: with a failure-free dispatcher, `sendAlertNotification`
makes exactly one role dispatch per entry of `target_roles` followed by
one user dispatch per entry of `target_users`, in order, and catches no
error. -/
theorem sendAlertNotification_noFail (alert : SmartAlert) :
    sendAlertNotification noDispatchFailure noDispatchFailure alert =
      { roleAttempts := (alert.target_roles.getD []).map fun i => (i, rolePayload alert i)
        userAttempts := (alert.target_users.getD []).map fun i => (i, userPayload alert i)
        caughtError := false } := by
  simp [sendAlertNotification,
    attemptDispatches_of_all_ok noDispatchFailure (rolePayload alert)
      (alert.target_roles.getD []) fun i _ => rfl,
    attemptDispatches_of_all_ok noDispatchFailure (userPayload alert)
      (alert.target_users.getD []) fun i _ => rfl]

/-- C2: processing a critical or warning result creates exactly one alert
row and one notification fan-out; with a failure-free dispatcher, the
fan-out makes exactly one dispatch attempt per entry of the alert's
`target_roles` and `target_users`; the produced trace is independent of
the previously cached status (no debounce), a result staying bad for `n`
consecutive cycles creates `n` alert rows, and a cycle whose results are
all healthy creates zero. -/
theorem c2_no_debounce_one_alert_per_bad_result (failsRole failsUser : Int → Bool)
    (s s' : MonitorState) (r : HealthCheckResult)
    (h : r.status = HealthStatus.critical ∨ r.status = HealthStatus.warning) :
    (processHealthCheckResult failsRole failsUser s r).2.alerts.length = 1 ∧
    (processHealthCheckResult failsRole failsUser s r).2.sends.length = 1 ∧
    (∀ st ∈ (processHealthCheckResult noDispatchFailure noDispatchFailure s r).2.sends,
      st.roleAttempts.map Prod.fst = (createHealthAlert r).target_roles.getD [] ∧
      st.userAttempts.map Prod.fst = (createHealthAlert r).target_users.getD [] ∧
      st.caughtError = false) ∧
    (processHealthCheckResult failsRole failsUser s' r).2 =
      (processHealthCheckResult failsRole failsUser s r).2 ∧
    (∀ n : Nat, (processN failsRole failsUser r n s).2 = n) ∧
    (∀ (s0 : MonitorState) (results : List HealthCheckResult),
      (∀ x ∈ results, x.status = HealthStatus.healthy) →
      totalAlerts
        (performHealthChecks failsRole failsUser s0 (results.map Except.ok)).traces = 0) := by
  refine ⟨?_, ?_, ?_, rfl, fun n => processN_alert_count failsRole failsUser r h n s,
    fun s0 results hh => healthy_cycle_no_alerts failsRole failsUser results s0 hh⟩
  · rcases h with h | h <;> simp [processHealthCheckResult, h]
  · rcases h with h | h <;> simp [processHealthCheckResult, h]
  · intro st hst
    have hs : (processHealthCheckResult noDispatchFailure noDispatchFailure s r).2.sends =
        [sendAlertNotification noDispatchFailure noDispatchFailure (createHealthAlert r)] := by
      rcases h with h | h <;> simp [processHealthCheckResult, h, createSystemAlert]
    rw [hs, List.mem_singleton] at hst
    subst hst
    rw [sendAlertNotification_noFail]
    simp [List.map_map, Function.comp_def]

/-- A concrete warning Database Connection result (round trip of 1500 ms). -/
def dbWarnResult : HealthCheckResult := checkDatabaseConnection (Except.ok ()) 1500

/-- C2 witness: the no-debounce theorem applied, on the initial state, to
the concrete warning result of a 1500 ms round trip; three consecutive
cycles yield three alert rows. -/
theorem c2_no_debounce_one_alert_per_bad_result_witness :
    (processHealthCheckResult noDispatchFailure noDispatchFailure initialState
      dbWarnResult).2.alerts.length = 1 ∧
    (processN noDispatchFailure noDispatchFailure dbWarnResult 3 initialState).2 = 3 := by
  have h := c2_no_debounce_one_alert_per_bad_result noDispatchFailure noDispatchFailure
    initialState initialState dbWarnResult (Or.inr (by decide))
  exact ⟨h.1, h.2.2.2.2.1 3⟩

/-- C4: the cycle's fan-in (`Promise.allSettled`) isolates probe faults:
for any mix of fulfilled and rejected probe outcomes, every fulfilled
result is processed (its trace is exactly what processing it alone would
produce) and every rejected probe only increments the skip-log count; a
probe that throws internally yields critical (connection, performance,
liveness) or unknown (memory) with the error captured, and the cycle
function is total (never propagates an exception). -/
theorem c4_cycle_fault_isolation (failsRole failsUser : Int → Bool) (s : MonitorState)
    (outcomes : List (Except String HealthCheckResult)) (d : Int) (msg : String) :
    (performHealthChecks failsRole failsUser s outcomes).traces =
      (okResults outcomes).map
        (fun r => (processHealthCheckResult failsRole failsUser s r).2) ∧
    (performHealthChecks failsRole failsUser s outcomes).skippedLogs =
      rejectedCount outcomes ∧
    (checkDatabaseConnection (Except.error msg) d).status = HealthStatus.critical ∧
    (checkDatabaseConnection (Except.error msg) d).error = some msg ∧
    (checkDatabasePerformance (Except.error msg) d).status = HealthStatus.critical ∧
    (checkDatabasePerformance (Except.error msg) d).error = some msg ∧
    (checkSystemMemory (Except.error msg) d).status = HealthStatus.unknown ∧
    (checkSystemMemory (Except.error msg) d).error = some msg ∧
    (checkSystemHealth (Except.error msg) d).status = HealthStatus.critical ∧
    (checkSystemHealth (Except.error msg) d).error = some msg := by
  refine ⟨?_, ?_, rfl, rfl, rfl, rfl, rfl, rfl, rfl, rfl⟩
  · induction outcomes generalizing s with
    | nil => rfl
    | cons o rest ih =>
      cases o with
      | ok r =>
        simp only [performHealthChecks, okResults, List.map_cons, List.cons.injEq]
        exact ⟨by trivial, ih _⟩
      | error e => simpa only [performHealthChecks, okResults] using ih s
  · induction outcomes generalizing s with
    | nil => rfl
    | cons o rest ih =>
      cases o with
      | ok r => simpa only [performHealthChecks, rejectedCount] using ih _
      | error e => simp only [performHealthChecks, rejectedCount, ih s]

/-- A concrete critical Database Connection result whose query threw. -/
def cxResult : HealthCheckResult :=
  checkDatabaseConnection (Except.error "connection refused") 6000

/-- The health alert synthesized for `cxResult`; its `target_roles` is the
fixed `[1, 2]`. -/
def cxAlert : SmartAlert := createHealthAlert cxResult

/-- A dispatch-failure model under which the dispatcher call for role 1
throws and every other call succeeds. -/
def cxFailsRole : Int → Bool := fun i => i == 1

/-- C1 counterexample: with the fixed `target_roles = [1, 2]`, a throw by
the dispatch for role 1 prevents the dispatch attempt for role 2 — the
only attempted recipient is role 1, refuting the claim that one
recipient's failure does not prevent the remaining dispatch attempts
(the failure is logged once at the function level, not per recipient). -/
theorem c1_counterexample :
    cxAlert.target_roles = some [1, 2] ∧
    (sendAlertNotification cxFailsRole noDispatchFailure cxAlert).roleAttempts.map
      Prod.fst = [1] ∧
    (2 : Int) ∉
      ((sendAlertNotification cxFailsRole noDispatchFailure cxAlert).roleAttempts.map
        Prod.fst) ∧
    (sendAlertNotification cxFailsRole noDispatchFailure cxAlert).caughtError = true := by
  refine ⟨rfl, rfl, ?_, rfl⟩
  decide

/-- C1 (amended): the whole fan-out sits in one `try`/`catch`, so a throw
by the dispatch for one recipient is caught and logged at the function
level and never propagates to the caller, but it aborts all remaining
dispatch attempts for that alert: the attempted roles are exactly the
prefix up to and including the first failing one, and no user dispatch is
attempted. -/
theorem c1_dispatch_failure_aborts_rest (failsRole failsUser : Int → Bool)
    (alert : SmartAlert) (pre post : List Int) (x : Int)
    (hroles : alert.target_roles.getD [] = pre ++ x :: post)
    (hpre : ∀ i ∈ pre, failsRole i = false) (hx : failsRole x = true) :
    (sendAlertNotification failsRole failsUser alert).roleAttempts.map Prod.fst =
      pre ++ [x] ∧
    (sendAlertNotification failsRole failsUser alert).userAttempts = [] ∧
    (sendAlertNotification failsRole failsUser alert).caughtError = true := by
  have hatt := attemptDispatches_first_fail failsRole (rolePayload alert) pre post x hpre hx
  simp only [sendAlertNotification, hroles, hatt]
  simp [List.map_map, Function.comp_def]

/-- C1 witness: the amended theorem applied to the concrete alert
`cxAlert` with roles `[1, 2]` and a dispatcher that throws for role 1. -/
theorem c1_dispatch_failure_aborts_rest_witness :
    (sendAlertNotification cxFailsRole noDispatchFailure cxAlert).userAttempts = [] ∧
    (sendAlertNotification cxFailsRole noDispatchFailure cxAlert).caughtError = true := by
  have h := c1_dispatch_failure_aborts_rest cxFailsRole noDispatchFailure cxAlert [] [2] 1
    rfl (by simp) rfl
  exact ⟨h.2.1, h.2.2⟩

end HealthMon
